import Mathlib

/-!
Shallow embedding of the sfpdcadcot poll-filter-transform pipeline
(src/sfpdcadcot/classes.py and src/sfpdcadcot/functions.py).

Timestamps are modelled as seconds since the Unix epoch (a `Nat`); the
minute-of-hour component of a timestamp `t` is `t / 60 % 60`.  Coordinate
scalars are modelled by their decimal string rendering (the code only ever
null-checks them and stringifies them with `str`).  Nullable feed fields are
`Option`s; a pandas `NaN`/JSON `null` is `none`.
-/

/-- Two-digit zero padding, as used by strftime-style formatting. -/
def pad2 (n : Nat) : String :=
  if n < 10 then "0" ++ Nat.repr n else Nat.repr n

/-- Four-digit zero padding for the year field. -/
def pad4 (n : Nat) : String :=
  if n < 10 then "000" ++ Nat.repr n
  else if n < 100 then "00" ++ Nat.repr n
  else if n < 1000 then "0" ++ Nat.repr n
  else Nat.repr n

/-- Proleptic-Gregorian civil date (year, month, day) of a day count since
1970-01-01 (the standard era-based civil-from-days algorithm). -/
def civilFromDays (z0 : Nat) : Nat × Nat × Nat :=
  let z := z0 + 719468
  let era := z / 146097
  let doe := z % 146097
  let yoe := (doe - doe / 1460 + doe / 36524 - doe / 146096) / 365
  let y := yoe + era * 400
  let doy := doe - (365 * yoe + yoe / 4 - yoe / 100)
  let mp := (5 * doy + 2) / 153
  let d := doy - (153 * mp + 2) / 5 + 1
  let m := if mp < 10 then mp + 3 else mp - 9
  (if m ≤ 2 then y + 1 else y, m, d)

/-- Body of the ISO-8601 UTC rendering of an epoch-seconds instant,
without the trailing Z. -/
def isoBody (t : Nat) : String :=
  let days := t / 86400
  let secs := t % 86400
  let c := civilFromDays days
  pad4 c.1 ++ "-" ++ pad2 c.2.1 ++ "-" ++ pad2 c.2.2 ++ "T" ++
    pad2 (secs / 3600) ++ ":" ++ pad2 (secs % 3600 / 60) ++ ":" ++ pad2 (secs % 60)

/-- ISO-8601 UTC timestamp with trailing Z: the CoT timestamp convention. -/
def isoFormat (t : Nat) : String :=
  isoBody t ++ "Z"

/-- Model of the external collaborator `pytak.cot_time`, specified at the
boundary (spec section 6): the current instant plus an offset in seconds,
rendered in the CoT ISO-8601 UTC convention with trailing Z.  The generation
instant `now` is passed explicitly; instants before the epoch are clamped. -/
def cot_time (now : Nat) (offset : Int) : String :=
  isoFormat ((now : Int) + offset).toNat

/-- Model of an `xml.etree.ElementTree.Element`: tag, attributes in insertion
order, optional text, children in append order. -/
structure XmlElement where
  tag : String
  attrs : List (String × String)
  text : Option String
  children : List XmlElement

/-- `ET.Element(tag)`: a fresh element with no attributes, text or children. -/
def ET.Element (tag : String) : XmlElement :=
  ⟨tag, [], none, []⟩

/-- `elem.set(key, value)`.  Every call site in the source sets a fresh key,
so appending to the attribute list matches the Python insertion-order dict. -/
def XmlElement.set (e : XmlElement) (k v : String) : XmlElement :=
  { e with attrs := e.attrs ++ [(k, v)] }

/-- `elem.append(child)`. -/
def XmlElement.appendChild (e c : XmlElement) : XmlElement :=
  { e with children := e.children ++ [c] }

/-- `elem.text = s`. -/
def XmlElement.setText (e : XmlElement) (s : String) : XmlElement :=
  { e with text := some s }

/-- Attribute lookup on the modelled element (first binding wins). -/
def XmlElement.attr (e : XmlElement) (k : String) : Option String :=
  (e.attrs.find? (fun p => p.1 == k)).map (fun p => p.2)

/-- Renders an attribute list as ` k="v" ...`. -/
def attrsToString : List (String × String) → String
  | [] => ""
  | (k, v) :: rest => " " ++ k ++ "=\"" ++ v ++ "\"" ++ attrsToString rest

mutual

/-- Model of `ET.tostring` (modulo the exact bytes of entity escaping, which
no claim depends on): the serialized element is never the empty string. -/
def elemToString : XmlElement → String
  | ⟨tag, attrs, text, children⟩ =>
    "<" ++ tag ++ attrsToString attrs ++ ">" ++
      (match text with | none => "" | some s => s) ++
      childListToString children ++ "</" ++ tag ++ ">"

/-- Serializes a list of child elements in order. -/
def childListToString : List XmlElement → String
  | [] => ""
  | c :: cs => elemToString c ++ childListToString cs

end

/-- Configuration section: string keys to string values, as in a
`configparser.SectionProxy`. -/
def Config : Type := List (String × String)

/-- `config.get(key)`: first binding for the key, if any. -/
def cfgGet (cfg : Config) (k : String) : Option String :=
  (cfg.find? (fun p => p.1 == k)).map (fun p => p.2)

/-- `config.get(key, default)`. -/
def cfgGetD (cfg : Config) (k d : String) : String :=
  (cfgGet cfg k).getD d

/-- Model of the external constant `pytak.DEFAULT_HOST_ID` (its value is
irrelevant to every claim; only its use as the `COT_HOST_ID` default matters). -/
def DEFAULT_HOST_ID : String := "pytak"

/-- Python `filter(None, fields)` over a list of nullable strings followed by
string collection: drops `None` and the empty string, keeps the rest. -/
def pyFilterTruthy (l : List (Option String)) : List String :=
  l.filterMap (fun x =>
    match x with
    | none => none
    | some s => if s = "" then none else some s)

/-- Accumulates a decimal digit string; fails on any non-digit character. -/
def digitsAux : List Char → Nat → Option Nat
  | [], acc => some acc
  | c :: cs, acc =>
    if c.isDigit then digitsAux cs (acc * 10 + (c.toNat - 48)) else none

/-- Model of Python `int(s)` on a string: an optional minus sign followed by
at least one decimal digit (surrounding whitespace and other int() niceties
never occur in the configurations of interest). -/
def pyInt (s : String) : Option Int :=
  match s.toList with
  | [] => none
  | ['-'] => none
  | '-' :: c :: cs => (digitsAux (c :: cs) 0).map (fun n => -(n : Int))
  | cs => (digitsAux cs 0).map (fun n => (n : Int))

/-- The `intersection_point` geometry object: a coordinates array whose
entries may be null and whose arity the code never checks before unpacking. -/
structure Geometry where
  coordinates : List (Option String)
deriving DecidableEq

/-- One Dispatch Record: the fields of a fetched row that the pipeline reads.
`received_datetime` is epoch seconds (the raw ISO string column and its
`pd.to_datetime` parse are order-isomorphic to it). -/
structure Record where
  cad_number : String
  received_datetime : Nat
  close_datetime : Option Nat
  intersection_point : Option Geometry
  intersection_name : Option String
  call_type_final : String
  call_type_final_desc : String
  police_district : Option String
deriving DecidableEq

/-- `ts.dt.minute`: the minute-of-hour component of a timestamp. -/
def minuteOf (t : Nat) : Nat :=
  t / 60 % 60

/-- Exceptions the transform can raise (Python TypeError/ValueError):
subscripting a null geometry, unpacking a coordinates array that is not a
pair, or `int(config.get("COT_STALE"))` failing (key missing or value not an
integer literal). -/
inductive TErr where
  | nullPoint
  | unpackCoords
  | staleParse
deriving DecidableEq

/-- `call_to_cot_xml(call, config)` from src/sfpdcadcot/functions.py, line by
line.  `config or` applied to the `None` default yields the empty dict; then
`lon, lat = call.intersection_point["coordinates"]`; the null check returns
the no-event signal; `int(config.get("COT_STALE"))` raises if absent or
unparseable; then the element tree is assembled exactly as in the source.
The generation instant `now` is the explicit clock value. -/
def call_to_cot_xml (call : Record) (config0 : Option Config) (now : Nat) :
    Except TErr (Option XmlElement) :=
  let config : Config := config0.getD []
  match call.intersection_point with
  | none => .error .nullPoint
  | some ip =>
    match ip.coordinates with
    | [lon, lat] =>
      if lat = none ∨ lon = none then .ok none
      else
        match (cfgGet config "COT_STALE").bind pyInt with
        | none => .error .staleParse
        | some cot_stale =>
          let cot_host_id := cfgGetD config "COT_HOST_ID" DEFAULT_HOST_ID
          let cot_uid := "SFPDCAD." ++ call.cad_number
          let cot_type := "a-u-G"
          let callsign := call.call_type_final ++ " " ++ call.call_type_final_desc
          let remarks_fields : List (Option String) :=
            [some callsign, call.intersection_name, call.police_district,
              some ("CAD: " ++ call.cad_number)]
          let point := (((((ET.Element "point").set "lat" (lat.getD "")).set
            "lon" (lon.getD "")).set "ce" "9999999.0").set "le"
            "9999999.0").set "hae" "9999999.0"
          let uid := (ET.Element "UID").set "Droid" callsign
          let contact := (ET.Element "contact").set "callsign" callsign
          let track := ((ET.Element "track").set "course" "9999999.0").set
            "speed" "9999999.0"
          let detail := ((((ET.Element "detail").set "uid"
            cot_uid).appendChild uid).appendChild contact).appendChild track
          let remarks_fields2 := remarks_fields ++ [some cot_host_id]
          let remarksText := String.intercalate " - " (pyFilterTruthy remarks_fields2)
          let remarks := (ET.Element "remarks").setText remarksText
          let detail2 := detail.appendChild remarks
          let root := (((((((ET.Element "event").set "version" "2.0").set
            "type" cot_type).set "uid" cot_uid).set "how" "m-g").set "time"
            (cot_time now 0)).set "start" (cot_time now 0)).set "stale"
            (cot_time now cot_stale)
          .ok (some ((root.appendChild point).appendChild detail2))
    | _ => .error .unpackCoords

/-- `call_to_cot(call, config)`: serialize the element, with the Python
truthiness test `if cot` on an Element (false when it has no children). -/
def call_to_cot (call : Record) (config0 : Option Config) (now : Nat) :
    Except TErr (Option String) :=
  match call_to_cot_xml call config0 now with
  | .error e => .error e
  | .ok none => .ok none
  | .ok (some cot) =>
    .ok (if cot.children.isEmpty then none else some (elemToString cot))

/-- The descending `received_datetime` order used by
`sort_values(by='received_datetime', ascending=False)`: `rdGe a b` holds when
`a` is at least as recent as `b`. -/
def rdGe (a b : Record) : Prop :=
  b.received_datetime ≤ a.received_datetime

instance : DecidableRel rdGe :=
  fun a b => Nat.decLe b.received_datetime a.received_datetime

instance : IsTotal Record rdGe :=
  ⟨fun a b => (Nat.le_total b.received_datetime a.received_datetime).elim Or.inl Or.inr⟩

instance : IsTrans Record rdGe :=
  ⟨fun _ _ _ hab hbc => Nat.le_trans hbc hab⟩

/-- The filter-and-order step of `CADWorker.handle_data`
(src/sfpdcadcot/classes.py lines 43-45):
`calls = data.dropna(subset='intersection_point')`, then a derived column
`calls['ts'] = pd.to_datetime(calls['received_datetime'])` on that copy, then
the chained boolean selection `calls[calls.ts.dt.minute < 15]
[calls.close_datetime.isnull()]` (index alignment makes it the conjunction of
the two masks), then the descending sort on `received_datetime`. -/
def filterRecords (data : List Record) : List Record :=
  let calls := data.filter (fun r => r.intersection_point.isSome)
  let callsTs := calls.map (fun r => (r, r.received_datetime))
  let sel := callsTs.filter
    (fun rc => minuteOf rc.2 < 15 && rc.1.close_datetime.isNone)
  List.insertionSort rdGe (sel.map (fun rc => rc.1))

/-- The per-record loop of `handle_data` (lines 47-54): for each filtered call
in order, run `call_to_cot`; a falsy result is skipped with `continue`; a
truthy result is put on the queue; an exception raised by `call_to_cot`
propagates, abandoning the rest of the batch.  Returns the events actually
queued, in queue order, and the exception that escaped, if any. -/
def processCalls (calls : List Record) (config0 : Option Config) (now : Nat) :
    List String × Option TErr :=
  match calls with
  | [] => ([], none)
  | c :: rest =>
    match call_to_cot c config0 now with
    | .error e => ([], some e)
    | .ok none => processCalls rest config0 now
    | .ok (some ev) =>
      let r := processCalls rest config0 now
      (ev :: r.1, r.2)

/-- `CADWorker.handle_data(data)`: filter, order, transform and queue. -/
def handle_data (data : List Record) (config0 : Option Config) (now : Nat) :
    List String × Option TErr :=
  processCalls (filterRecords data) config0 now

/-- `handle_data` with the fetched snapshot threaded through explicitly as
state: every pandas step either reads `data` or writes to the fresh copy
`calls` produced by `dropna` (the `calls['ts'] = ...` column assignment lands
on that copy), so the snapshot accompanying the result is the one that came
in.  The first component repeats the pipeline literally. -/
def handle_data_state (data : List Record) (config0 : Option Config) (now : Nat) :
    (List String × Option TErr) × List Record :=
  let calls := data.filter (fun r => r.intersection_point.isSome)
  let callsTs := calls.map (fun r => (r, r.received_datetime))
  let sel := callsTs.filter
    (fun rc => minuteOf rc.2 < 15 && rc.1.close_datetime.isNone)
  let ordered := List.insertionSort rdGe (sel.map (fun rc => rc.1))
  (processCalls ordered config0 now, data)

/-- Outcome of running `CADWorker.run` for a bounded number of loop steps:
either the fuel ran out with `polled` completed fetch+process+sleep
iterations, or an uncaught exception escaped the `while` loop after `polled`
completed iterations. -/
inductive RunOutcome where
  | running (polled : Nat)
  | crashed (polled : Nat)
deriving DecidableEq

/-- The body of `CADWorker.run` (src/sfpdcadcot/classes.py lines 63-75): an
unguarded `while 1` that awaits `get_cad_feed` (fetch then `handle_data`) and
sleeps.  `feed i` is the snapshot `pd.read_json(url)` yields on iteration
`i`, with `none` when the fetch raises (feed unreachable or unparseable).
There is no try/except anywhere in `run`, `get_cad_feed` or `handle_data`,
so any exception ends the loop. -/
def runWorkerAux (feed : Nat → Option (List Record)) (config0 : Option Config)
    (now : Nat) : Nat → Nat → RunOutcome
  | i, 0 => .running i
  | i, fuel + 1 =>
    match feed i with
    | none => .crashed i
    | some data =>
      match (handle_data data config0 now).2 with
      | some _ => .crashed i
      | none => runWorkerAux feed config0 now (i + 1) fuel

/-- `CADWorker.run` started from iteration 0 with the given fuel. -/
def runWorker (feed : Nat → Option (List Record)) (config0 : Option Config)
    (now : Nat) (fuel : Nat) : RunOutcome :=
  runWorkerAux feed config0 now 0 fuel

/-- The section-8 example record: CAD 221650608, received 2022-06-14T08:00:57Z
(epoch 1655193657, minute-of-hour 0), still open, point geometry present. -/
def record221 : Record :=
  ⟨"221650608", 1655193657, none, some ⟨[some "-122.406296", some "37.77898"]⟩,
    some "07TH ST \\ HARRISON ST", "853", "RECOVER MISSING VEH", some "SOUTHERN"⟩

/-- An older open record (received 2022-06-14T07:00:57Z, minute-of-hour 0),
eligible for the filter, used to exhibit the ordering. -/
def oldRec : Record :=
  ⟨"221650001", 1655190057, none, some ⟨[some "-122.41", some "37.76"]⟩,
    none, "217", "SHOTS FIRED", some "MISSION"⟩

/-- A record whose geometry has a malformed three-element coordinates array:
`lon, lat = call.intersection_point["coordinates"]` raises on it.  Received
2022-06-14T08:02:00Z (minute-of-hour 2), open, so the filter keeps it and it
sorts ahead of `record221`. -/
def badRec : Record :=
  ⟨"990000001", 1655193720, none, some ⟨[some "-122.4", some "37.77", some "0.0"]⟩,
    none, "217", "SHOTS FIRED", some "MISSION"⟩

/-- A configuration carrying the section-8 example options. -/
def configTAK : Config :=
  [("COT_STALE", "300"), ("COT_HOST_ID", "TAK-SERVER")]

/-- A feed whose fetch raises on the very first poll iteration and would
succeed (with an empty snapshot) on every later one. -/
def failFeed : Nat → Option (List Record) :=
  fun i => if i = 0 then none else some []

/-- Reads the text of the `<remarks>` child of the `<detail>` child out of a
transform result of the section-6 shape. -/
def remarksOfResult (res : Except TErr (Option XmlElement)) : Option String :=
  match res with
  | .ok (some root) =>
    match root.children with
    | [_, detail] =>
      match detail.children with
      | [_, _, _, rem] => rem.text
      | _ => none
    | _ => none
  | _ => none

/-- Membership in the filtered sequence is exactly the conjunction of the
three eligibility conditions, for records drawn from the snapshot. -/
theorem mem_filterRecords {data : List Record} {r : Record} :
    r ∈ filterRecords data ↔
      r ∈ data ∧ r.intersection_point.isSome = true ∧
        minuteOf r.received_datetime < 15 ∧ r.close_datetime = none := by
  unfold filterRecords
  rw [List.mem_insertionSort, List.mem_map]
  constructor
  · rintro ⟨⟨c, ts⟩, hsel, rfl⟩
    obtain ⟨hmem, hq⟩ := List.mem_filter.mp hsel
    obtain ⟨a, ha, heq⟩ := List.mem_map.mp hmem
    obtain ⟨ha1, ha2⟩ := List.mem_filter.mp ha
    injection heq with h1 h2
    subst h1
    subst h2
    simp only [Bool.and_eq_true, decide_eq_true_eq, Option.isNone_iff_eq_none] at hq
    exact ⟨ha1, ha2, hq.1, hq.2⟩
  · rintro ⟨hmem, hsome, hmin, hcl⟩
    refine ⟨(r, r.received_datetime), ?_, rfl⟩
    rw [List.mem_filter]
    refine ⟨List.mem_map.mpr ⟨r, List.mem_filter.mpr ⟨hmem, hsome⟩, rfl⟩, ?_⟩
    simp [hmin, hcl]

/-- C3: for every input snapshot, the Record Filter keeps exactly those
records with a non-null intersection_point, a null close_datetime, and a
received_datetime whose minute-of-hour component is below 15 (a
minute-of-hour threshold on `t / 60 % 60`, not elapsed time since receipt),
and excludes every record failing any one of the three conditions. -/
theorem spec_C3_filter_keeps_exactly_eligible :
    ∀ (data : List Record) (r : Record),
      r ∈ filterRecords data ↔
        r ∈ data ∧ r.intersection_point.isSome = true ∧
          minuteOf r.received_datetime < 15 ∧ r.close_datetime = none :=
  fun _ _ => mem_filterRecords

/-- Witness for C3 at a concrete snapshot: the open, geolocated, minute-0
record is kept, and a record absent from the snapshot is not produced. -/
theorem spec_C3_witness :
    record221 ∈ filterRecords [record221] ∧
    (oldRec ∈ filterRecords [record221] → False) := by
  constructor
  · exact (spec_C3_filter_keeps_exactly_eligible [record221] record221).mpr
      ⟨by decide, by decide, by decide, by decide⟩
  · intro h
    have hmem := (spec_C3_filter_keeps_exactly_eligible [record221] oldRec).mp h
    revert hmem
    decide

/-- The filtered sequence is sorted by the descending received_datetime
order (insertion sort with a total transitive relation). -/
theorem sorted_filterRecords (data : List Record) :
    (filterRecords data).Sorted rdGe := by
  unfold filterRecords
  exact List.sorted_insertionSort rdGe _

/-- When no exception escapes the per-record loop, the queued events are
exactly the truthy transform results of the filtered calls, in order. -/
theorem processCalls_eq_filterMap {l : List Record} {c : Option Config} {n : Nat}
    (h : (processCalls l c n).2 = none) :
    (processCalls l c n).1 = l.filterMap (fun r =>
      match call_to_cot r c n with
      | .ok (some ev) => some ev
      | _ => none) := by
  induction l with
  | nil => rfl
  | cons a rest ih =>
    simp only [processCalls] at h ⊢
    cases hc : call_to_cot a c n with
    | error e => rw [hc] at h; simp at h
    | ok o =>
      cases o with
      | none =>
        rw [hc] at h
        simpa [List.filterMap_cons, hc] using ih h
      | some ev =>
        rw [hc] at h
        simpa [List.filterMap_cons, hc] using ih h
/-- C5 -/
theorem spec_C5_order_and_submission :
    ∀ (data : List Record) (config0 : Option Config) (now : Nat),
      (∀ (i j : Fin (filterRecords data).length), (i : Nat) < (j : Nat) →
        ((filterRecords data).get j).received_datetime ≤
          ((filterRecords data).get i).received_datetime) ∧
      ((handle_data data config0 now).2 = none →
        (handle_data data config0 now).1 = (filterRecords data).filterMap (fun r =>
          match call_to_cot r config0 now with
          | .ok (some ev) => some ev
          | _ => none)) := by
  intro data config0 now
  constructor
  · intro i j hij
    exact (sorted_filterRecords data).rel_get_of_lt hij
  · intro h
    exact processCalls_eq_filterMap h

theorem spec_C5_witness :
    (((filterRecords [oldRec, record221]).get ⟨1, by decide⟩).received_datetime ≤
      ((filterRecords [oldRec, record221]).get ⟨0, by decide⟩).received_datetime) ∧
    (handle_data [oldRec, record221] (some configTAK) 1655193657).1 =
      (filterRecords [oldRec, record221]).filterMap (fun r =>
        match call_to_cot r (some configTAK) 1655193657 with
        | .ok (some ev) => some ev
        | _ => none) :=
  ⟨(spec_C5_order_and_submission [oldRec, record221] (some configTAK) 1655193657).1
      ⟨0, by decide⟩ ⟨1, by decide⟩ (by decide),
    (spec_C5_order_and_submission [oldRec, record221] (some configTAK) 1655193657).2
      (by rfl)⟩

/-- C1: refutation of the recovery policy on the code as written.  The run
loop of `CADWorker.run` has no exception handling: when the very first fetch
raises, the loop ends with zero further iterations (`crashed 0`), instead of
skipping the iteration and reaching the next scheduled poll; with a healthy
feed the same loop completes every scheduled iteration. -/
theorem spec_C1_fetch_failure_ends_loop :
    runWorker failFeed (some configTAK) 1655193657 5 = RunOutcome.crashed 0 ∧
    runWorker (fun _ => some []) (some configTAK) 1655193657 5 =
      RunOutcome.running 5 :=
  ⟨rfl, rfl⟩

/-- C2: refutation of per-record isolation on the code as written.  In a
batch whose first (most recent) record has a malformed three-element
coordinates array, the unpacking exception escapes `handle_data`: nothing at
all is queued and the error propagates, although the well-formed second
record on its own yields exactly one queued event. -/
theorem spec_C2_bad_record_aborts_batch :
    handle_data [badRec, record221] (some configTAK) 1655193657 =
      ([], some TErr.unpackCoords) ∧
    (handle_data [record221] (some configTAK) 1655193657).2 = none ∧
    (handle_data [record221] (some configTAK) 1655193657).1.length = 1 :=
  ⟨rfl, rfl, rfl⟩

/-- C9: the pipeline never mutates the fetched snapshot.  With the snapshot
threaded through `handle_data` as explicit state, the snapshot comes out
exactly as it went in, the threaded pipeline computes the same result as
`handle_data`, and every record of the filtered sequence is literally one of
the fetched records (read and projected, never rebuilt or altered). -/
theorem spec_C9_pipeline_preserves_snapshot :
    ∀ (data : List Record) (config0 : Option Config) (now : Nat),
      (handle_data_state data config0 now).2 = data ∧
      (handle_data_state data config0 now).1 = handle_data data config0 now ∧
      ∀ r ∈ filterRecords data, r ∈ data :=
  fun _ _ _ => ⟨rfl, rfl, fun _ hr => (mem_filterRecords.mp hr).1⟩

/-- Witness for C9 at a concrete snapshot. -/
theorem spec_C9_witness :
    (handle_data_state [record221] (some configTAK) 1655193657).2 = [record221] ∧
    record221 ∈ ([record221] : List Record) :=
  ⟨(spec_C9_pipeline_preserves_snapshot [record221] (some configTAK) 1655193657).1,
    (spec_C9_pipeline_preserves_snapshot [record221] (some configTAK) 1655193657).2.2
      record221 (by decide)⟩

/-- C10: `int(config.get("COT_STALE"))` is evaluated unconditionally once the
coordinates are non-null, so a configuration that is omitted (the None
default becomes the empty dict) or lacks COT_STALE makes the transform raise
for every record with non-null coordinates — neither an event nor the
no-event signal is returned. -/
theorem spec_C10_missing_stale_raises :
    ∀ (call : Record) (config0 : Option Config) (now : Nat) (lonv latv : String),
      call.intersection_point = some ⟨[some lonv, some latv]⟩ →
      cfgGet (config0.getD []) "COT_STALE" = none →
      call_to_cot_xml call config0 now = .error .staleParse ∧
      call_to_cot call config0 now = .error .staleParse := by
  intro call config0 now lonv latv hip hst
  have h1 : call_to_cot_xml call config0 now = .error .staleParse := by
    unfold call_to_cot_xml
    rw [hip]
    simp [hst]
  exact ⟨h1, by unfold call_to_cot; rw [h1]⟩

/-- Witness for C10: the section-8 record with the configuration argument
omitted. -/
theorem spec_C10_witness :
    call_to_cot_xml record221 none 0 = .error .staleParse ∧
    call_to_cot record221 none 0 = .error .staleParse :=
  spec_C10_missing_stale_raises record221 none 0 "-122.406296" "37.77898" rfl rfl

theorem call_to_cot_xml_ok {call : Record} {cfg : Config} (now : Nat)
    {lonv latv : String} {s : Int}
    (hip : call.intersection_point = some ⟨[some lonv, some latv]⟩)
    (hst : (cfgGet cfg "COT_STALE").bind pyInt = some s) :
    call_to_cot_xml call (some cfg) now = .ok (some
      ⟨"event",
        [("version", "2.0"), ("type", "a-u-G"),
          ("uid", "SFPDCAD." ++ call.cad_number), ("how", "m-g"),
          ("time", cot_time now 0), ("start", cot_time now 0),
          ("stale", cot_time now s)],
        none,
        [⟨"point", [("lat", latv), ("lon", lonv), ("ce", "9999999.0"),
            ("le", "9999999.0"), ("hae", "9999999.0")], none, []⟩,
          ⟨"detail", [("uid", "SFPDCAD." ++ call.cad_number)], none,
            [⟨"UID", [("Droid", call.call_type_final ++ " " ++
                call.call_type_final_desc)], none, []⟩,
              ⟨"contact", [("callsign", call.call_type_final ++ " " ++
                call.call_type_final_desc)], none, []⟩,
              ⟨"track", [("course", "9999999.0"), ("speed", "9999999.0")],
                none, []⟩,
              ⟨"remarks", [], some (String.intercalate " - " (pyFilterTruthy
                [some (call.call_type_final ++ " " ++ call.call_type_final_desc),
                  call.intersection_name, call.police_district,
                  some ("CAD: " ++ call.cad_number),
                  some (cfgGetD cfg "COT_HOST_ID" DEFAULT_HOST_ID)])), []⟩]⟩]⟩) := by
  unfold call_to_cot_xml
  rw [hip]
  simp [hst, ET.Element, XmlElement.set, XmlElement.appendChild, XmlElement.setText]

theorem elemToString_ne_empty (e : XmlElement) : elemToString e ≠ "" := by
  obtain ⟨tag, attrs, text, children⟩ := e
  intro h
  have hl := congrArg String.length h
  simp [elemToString, String.length_append] at hl
  exact absurd hl.2 (by decide)

/-- C4 -/
theorem spec_C4_remarks_composition :
    (∀ (call : Record) (cfg : Config) (now : Nat) (lonv latv : String) (s : Int),
      call.intersection_point = some ⟨[some lonv, some latv]⟩ →
      (cfgGet cfg "COT_STALE").bind pyInt = some s →
      remarksOfResult (call_to_cot_xml call (some cfg) now) =
        some (String.intercalate " - " (pyFilterTruthy
          [some (call.call_type_final ++ " " ++ call.call_type_final_desc),
            call.intersection_name, call.police_district,
            some ("CAD: " ++ call.cad_number),
            some (cfgGetD cfg "COT_HOST_ID" DEFAULT_HOST_ID)]))) ∧
    remarksOfResult (call_to_cot_xml record221 (some configTAK) 1655193657) =
      some "853 RECOVER MISSING VEH - 07TH ST \\ HARRISON ST - SOUTHERN - CAD: 221650608 - TAK-SERVER" := by
  constructor
  · intro call cfg now lonv latv s hip hst
    rw [call_to_cot_xml_ok now hip hst]
    rfl
  · rfl

theorem spec_C4_witness :
    remarksOfResult (call_to_cot_xml record221 (some configTAK) 1655193657) =
      some (String.intercalate " - " (pyFilterTruthy
        [some (record221.call_type_final ++ " " ++ record221.call_type_final_desc),
          record221.intersection_name, record221.police_district,
          some ("CAD: " ++ record221.cad_number),
          some (cfgGetD configTAK "COT_HOST_ID" DEFAULT_HOST_ID)])) :=
  spec_C4_remarks_composition.1 record221 configTAK 1655193657
    "-122.406296" "37.77898" 300 rfl rfl

/-- C6 -/
theorem spec_C6_no_event_iff_null_coordinate :
    ∀ (call : Record) (cfg : Config) (now : Nat) (lon lat : Option String),
      call.intersection_point = some ⟨[lon, lat]⟩ →
      (cfgGet cfg "COT_STALE").bind pyInt ≠ none →
      ((call_to_cot call (some cfg) now = .ok none ↔ (lat = none ∨ lon = none)) ∧
        (∀ lonv latv, lon = some lonv → lat = some latv →
          ∃ ev, call_to_cot call (some cfg) now = .ok (some ev) ∧ ev ≠ "")) := by
  intro call cfg now lon lat hip hst
  obtain ⟨s, hs⟩ := Option.ne_none_iff_exists'.mp hst
  by_cases hnull : lat = none ∨ lon = none
  · have hx : call_to_cot_xml call (some cfg) now = .ok none := by
      unfold call_to_cot_xml
      rw [hip]
      simp [hnull]
    have hc : call_to_cot call (some cfg) now = .ok none := by
      unfold call_to_cot
      rw [hx]
    refine ⟨by simp [hc, hnull], ?_⟩
    intro lonv latv hlon hlat
    rcases hnull with h | h
    · rw [h] at hlat
      cases hlat
    · rw [h] at hlon
      cases hlon
  · push_neg at hnull
    obtain ⟨latv, hlat⟩ := Option.ne_none_iff_exists'.mp hnull.1
    obtain ⟨lonv, hlon⟩ := Option.ne_none_iff_exists'.mp hnull.2
    subst hlat
    subst hlon
    have hx := call_to_cot_xml_ok now hip hs
    have hc : ∃ ev, call_to_cot call (some cfg) now = .ok (some ev) ∧ ev ≠ "" := by
      unfold call_to_cot
      rw [hx]
      exact ⟨_, rfl, elemToString_ne_empty _⟩
    obtain ⟨ev, hev, hne⟩ := hc
    refine ⟨?_, fun _ _ _ _ => ⟨ev, hev, hne⟩⟩
    rw [hev]
    simp

/-- Witness for C6. -/
theorem spec_C6_witness :
    ∃ ev, call_to_cot record221 (some configTAK) 1655193657 = .ok (some ev) ∧ ev ≠ "" :=
  (spec_C6_no_event_iff_null_coordinate record221 configTAK 1655193657
      (some "-122.406296") (some "37.77898") rfl (by decide)).2
    "-122.406296" "37.77898" rfl rfl

/-- C7 -/
theorem spec_C7_timestamps :
    ∀ (call : Record) (cfg : Config) (now : Nat) (lonv latv : String) (s : Nat),
      call.intersection_point = some ⟨[some lonv, some latv]⟩ →
      (cfgGet cfg "COT_STALE").bind pyInt = some ((s : Nat) : Int) →
      ∃ root, call_to_cot_xml call (some cfg) now = .ok (some root) ∧
        root.attr "time" = some (isoFormat now) ∧
        root.attr "start" = some (isoFormat now) ∧
        root.attr "stale" = some (isoFormat (now + s)) ∧
        (∃ p, isoFormat now = p ++ "Z") ∧
        (∃ q, isoFormat (now + s) = q ++ "Z") := by
  intro call cfg now lonv latv s hip hst
  have h0 : ((now : Int) + 0).toNat = now := by omega
  have hadd : ((now : Int) + (s : Int)).toNat = now + s := by omega
  refine ⟨_, call_to_cot_xml_ok now hip hst, ?_, ?_, ?_,
    ⟨isoBody now, rfl⟩, ⟨isoBody (now + s), rfl⟩⟩
  · show some (isoFormat ((now : Int) + 0).toNat) = some (isoFormat now)
    rw [h0]
  · show some (isoFormat ((now : Int) + 0).toNat) = some (isoFormat now)
    rw [h0]
  · show some (isoFormat ((now : Int) + (s : Int)).toNat) = some (isoFormat (now + s))
    rw [hadd]

/-- Witness for C7. -/
theorem spec_C7_witness :
    ∃ root, call_to_cot_xml record221 (some configTAK) 1655193657 = .ok (some root) ∧
      root.attr "time" = some (isoFormat 1655193657) ∧
      root.attr "start" = some (isoFormat 1655193657) ∧
      root.attr "stale" = some (isoFormat (1655193657 + 300)) ∧
      (∃ p, isoFormat 1655193657 = p ++ "Z") ∧
      (∃ q, isoFormat (1655193657 + 300) = q ++ "Z") :=
  spec_C7_timestamps record221 configTAK 1655193657 "-122.406296" "37.77898" 300
    rfl rfl

/-- C8 -/
theorem spec_C8_event_tree_shape :
    (∀ (call : Record) (cfg : Config) (now : Nat) (lonv latv : String) (s : Int),
      call.intersection_point = some ⟨[some lonv, some latv]⟩ →
      (cfgGet cfg "COT_STALE").bind pyInt = some s →
      call_to_cot_xml call (some cfg) now = .ok (some
        ⟨"event",
          [("version", "2.0"), ("type", "a-u-G"),
            ("uid", "SFPDCAD." ++ call.cad_number), ("how", "m-g"),
            ("time", cot_time now 0), ("start", cot_time now 0),
            ("stale", cot_time now s)],
          none,
          [⟨"point", [("lat", latv), ("lon", lonv), ("ce", "9999999.0"),
              ("le", "9999999.0"), ("hae", "9999999.0")], none, []⟩,
            ⟨"detail", [("uid", "SFPDCAD." ++ call.cad_number)], none,
              [⟨"UID", [("Droid", call.call_type_final ++ " " ++
                  call.call_type_final_desc)], none, []⟩,
                ⟨"contact", [("callsign", call.call_type_final ++ " " ++
                  call.call_type_final_desc)], none, []⟩,
                ⟨"track", [("course", "9999999.0"), ("speed", "9999999.0")],
                  none, []⟩,
                ⟨"remarks", [], some (String.intercalate " - " (pyFilterTruthy
                  [some (call.call_type_final ++ " " ++ call.call_type_final_desc),
                    call.intersection_name, call.police_district,
                    some ("CAD: " ++ call.cad_number),
                    some (cfgGetD cfg "COT_HOST_ID" DEFAULT_HOST_ID)])), []⟩]⟩]⟩)) ∧
    (∃ root, call_to_cot_xml record221 (some configTAK) 1655193657 = .ok (some root) ∧
      root.attr "uid" = some "SFPDCAD.221650608" ∧
      root.children.map XmlElement.tag = ["point", "detail"]) := by
  constructor
  · intro call cfg now lonv latv s hip hst
    exact call_to_cot_xml_ok now hip hst
  · exact ⟨_, call_to_cot_xml_ok (s := 300) 1655193657 rfl rfl, rfl, rfl⟩

/-- Witness for C8. -/
theorem spec_C8_witness :
    ∃ e, call_to_cot_xml record221 (some configTAK) 1655193657 = .ok (some e) :=
  ⟨_, spec_C8_event_tree_shape.1 record221 configTAK 1655193657
    "-122.406296" "37.77898" 300 rfl rfl⟩
